import Mathlib

/-!
Verification of the financial aggregation engine of the Finance_Tracker_AI
repository (src/FinancialTreaking101.py and src/app_1.py).

Transactions are pandas DataFrame rows; a frame carries a set of columns and
a list of rows.  Column presence is modelled at frame level (pandas columns
are frame-level); accessing a column that is absent raises a KeyError, which
is modelled with `Except String`.  Monetary amounts are modelled as exact
rationals; dates are naturals (the source stores ISO `YYYY-MM-DD` strings,
whose lexicographic order agrees with the numeric order of the encoded
number, so a numeric encoding is order-faithful).
-/

namespace FinanceTracker

/-- One DataFrame row with the attributes the engine reads. -/
structure Row where
  amount : ℚ
  category : String
  source : String
  payment_method : String
  date : ℕ
  fixed : Bool
deriving DecidableEq

/-- A pandas DataFrame: which columns are present, plus the rows.
`pd.DataFrame()` (the empty fallback everywhere in the source) has no
columns and no rows. -/
structure DataFrame where
  hasAmount : Bool
  hasFixed : Bool
  hasCategory : Bool
  hasSource : Bool
  hasDate : Bool
  rows : List Row
deriving DecidableEq

/-- The empty DataFrame `pd.DataFrame()`. -/
def emptyDF : DataFrame := ⟨false, false, false, false, false, []⟩

/-- `df['amount'].sum()` over all rows. -/
def amountSum (df : DataFrame) : ℚ := (df.rows.map Row.amount).sum

/-- `expenses_df['amount'].sum() if 'amount' in expenses_df.columns and not
expenses_df.empty else 0` (FinancialTreaking101.py lines 301-302). -/
def totalOf (df : DataFrame) : ℚ :=
  if df.hasAmount && !df.rows.isEmpty then amountSum df else 0

/-- `df[df['fixed']]['amount'].sum() if 'amount' in df.columns and not
df.empty else 0` (line 303).  The guard checks the `amount` column but the
body dereferences the `fixed` column: when that column is absent the access
raises (`KeyError: 'fixed'`). -/
def fixedSumE (df : DataFrame) : Except String ℚ :=
  if df.hasAmount && !df.rows.isEmpty then
    if df.hasFixed then
      Except.ok ((df.rows.filter Row.fixed).map Row.amount).sum
    else Except.error "KeyError: fixed"
  else Except.ok 0

/-- `df[~df['fixed']]['amount'].sum() if 'amount' in df.columns and not
df.empty else 0` (line 304), with the same unguarded `fixed` access. -/
def variableSumE (df : DataFrame) : Except String ℚ :=
  if df.hasAmount && !df.rows.isEmpty then
    if df.hasFixed then
      Except.ok ((df.rows.filter (fun r => !r.fixed)).map Row.amount).sum
    else Except.error "KeyError: fixed"
  else Except.ok 0

/-- The MetricsSummary dictionary built by `calculate_financial_metrics`. -/
structure Metrics where
  total_expenses : ℚ
  total_income : ℚ
  fixed_expenses : ℚ
  variable_expenses : ℚ
  fixed_income : ℚ
  variable_income : ℚ
  net_income : ℚ
  savings_rate : ℚ
  expense_ratio : ℚ
deriving DecidableEq

/-- `calculate_financial_metrics(expenses_df, income_df)`
(FinancialTreaking101.py lines 298-311).  Entries are evaluated in the
source order; the fixed/variable entries can raise when the `fixed` column
is missing, which aborts the whole call. -/
def calculate_financial_metrics (expenses_df income_df : DataFrame) :
    Except String Metrics := do
  let total_expenses := totalOf expenses_df
  let total_income := totalOf income_df
  let fixed_expenses ← fixedSumE expenses_df
  let variable_expenses ← variableSumE expenses_df
  let fixed_income ← fixedSumE income_df
  let variable_income ← variableSumE income_df
  let net_income := total_income - total_expenses
  let savings_rate := if total_income > 0 then net_income / total_income * 100 else 0
  let expense_ratio := if total_income > 0 then total_expenses / total_income * 100 else 0
  Except.ok ⟨total_expenses, total_income, fixed_expenses, variable_expenses,
    fixed_income, variable_income, net_income, savings_rate, expense_ratio⟩

/-- A frame on which the `fixed`-column access of lines 303-306 cannot
raise: the guard is false (no `amount` column or no rows) or the `fixed`
column is present. -/
def fixedOk (df : DataFrame) : Bool :=
  !(df.hasAmount && !df.rows.isEmpty) || df.hasFixed

/-- Value of the fixed partition when the access succeeds. -/
def fixedPure (df : DataFrame) : ℚ :=
  if df.hasAmount && !df.rows.isEmpty then
    ((df.rows.filter Row.fixed).map Row.amount).sum
  else 0

/-- Value of the variable partition when the access succeeds. -/
def variablePure (df : DataFrame) : ℚ :=
  if df.hasAmount && !df.rows.isEmpty then
    ((df.rows.filter (fun r => !r.fixed)).map Row.amount).sum
  else 0

theorem fixedSumE_eq (df : DataFrame) :
    fixedSumE df =
      if fixedOk df then Except.ok (fixedPure df) else Except.error "KeyError: fixed" := by
  unfold fixedSumE fixedOk fixedPure
  cases h1 : (df.hasAmount && !df.rows.isEmpty) <;> cases h2 : df.hasFixed <;> simp [h1, h2]

theorem variableSumE_eq (df : DataFrame) :
    variableSumE df =
      if fixedOk df then Except.ok (variablePure df) else Except.error "KeyError: fixed" := by
  unfold variableSumE fixedOk variablePure
  cases h1 : (df.hasAmount && !df.rows.isEmpty) <;> cases h2 : df.hasFixed <;> simp [h1, h2]

/-- Closed form of the calculator: it succeeds exactly when neither frame
hits the missing-`fixed`-column access, and then returns the record of
source lines 300-311. -/
theorem calculate_eq (e i : DataFrame) :
    calculate_financial_metrics e i =
      if fixedOk e && fixedOk i then
        Except.ok ⟨totalOf e, totalOf i, fixedPure e, variablePure e,
          fixedPure i, variablePure i, totalOf i - totalOf e,
          (if totalOf i > 0 then (totalOf i - totalOf e) / totalOf i * 100 else 0),
          (if totalOf i > 0 then totalOf e / totalOf i * 100 else 0)⟩
      else Except.error "KeyError: fixed" := by
  unfold calculate_financial_metrics
  rw [fixedSumE_eq, variableSumE_eq, fixedSumE_eq, variableSumE_eq]
  cases he : fixedOk e <;> cases hi : fixedOk i <;>
    simp [Except.bind, bind]

/-- For boolean `fixed` the two complementary filters partition the rows, so
their amount sums add up to the full sum exactly. -/
theorem sum_filter_fixed_add (l : List Row) :
    ((l.filter Row.fixed).map Row.amount).sum
      + ((l.filter (fun r => !r.fixed)).map Row.amount).sum
      = (l.map Row.amount).sum := by
  induction l with
  | nil => simp
  | cons r t ih =>
    cases hf : r.fixed <;> simp [List.filter, hf] <;> linarith [ih]

theorem fixed_add_variable (df : DataFrame) :
    fixedPure df + variablePure df = totalOf df := by
  unfold fixedPure variablePure totalOf amountSum
  cases h : (df.hasAmount && !df.rows.isEmpty) <;> simp [h, sum_filter_fixed_add]

/-- pandas `df.groupby(key)['amount'].sum().reset_index()`: the group keys
are the distinct key values in ascending order (pandas groups with the
default `sort=True`), each paired with the sum of `amount` over its group. -/
def groupbySum {K : Type} [LinearOrder K] [DecidableEq K] (key : Row → K)
    (rows : List Row) : List (K × ℚ) :=
  (List.insertionSort (· ≤ ·) (rows.map key).dedup).map
    (fun k => (k, ((rows.filter (fun r => key r = k)).map Row.amount).sum))

theorem groupbySum_perm {K : Type} [LinearOrder K] [DecidableEq K] (key : Row → K)
    {l1 l2 : List Row} (h : l1.Perm l2) : groupbySum key l1 = groupbySum key l2 := by
  unfold groupbySum
  have hkeys : List.insertionSort (· ≤ ·) (l1.map key).dedup
      = List.insertionSort (· ≤ ·) (l2.map key).dedup :=
    List.eq_of_perm_of_sorted
      (((List.perm_insertionSort _ _).trans ((h.map key).dedup)).trans
        (List.perm_insertionSort _ _).symm)
      (List.sorted_insertionSort _ _) (List.sorted_insertionSort _ _)
  rw [hkeys]
  refine List.map_congr_left ?_
  intro k _
  have hs : (l1.filter (fun r => key r = k)).Perm (l2.filter (fun r => key r = k)) :=
    h.filter _
  rw [(hs.map Row.amount).sum_eq]

theorem groupbySum_keys {K : Type} [LinearOrder K] [DecidableEq K] (key : Row → K)
    (rows : List Row) :
    (groupbySum key rows).map Prod.fst
      = List.insertionSort (· ≤ ·) (rows.map key).dedup := by
  unfold groupbySum
  rw [List.map_map]
  exact List.map_id _

theorem groupbySum_sorted {K : Type} [LinearOrder K] [DecidableEq K] (key : Row → K)
    (rows : List Row) :
    ((groupbySum key rows).map Prod.fst).Sorted (· < ·) := by
  rw [groupbySum_keys]
  have hnd : (List.insertionSort (· ≤ ·) (rows.map key).dedup).Nodup :=
    ((List.perm_insertionSort _ _).nodup_iff).mpr (rows.map key).nodup_dedup
  exact (List.sorted_insertionSort _ _).lt_of_le hnd

theorem groupbySum_mem {K : Type} [LinearOrder K] [DecidableEq K] (key : Row → K)
    (rows : List Row) (p : K × ℚ) (hp : p ∈ groupbySum key rows) :
    p.2 = ((rows.filter (fun r => key r = p.1)).map Row.amount).sum := by
  unfold groupbySum at hp
  rcases List.mem_map.mp hp with ⟨k, _, rfl⟩
  rfl

theorem groupbySum_covers {K : Type} [LinearOrder K] [DecidableEq K] (key : Row → K)
    (rows : List Row) (d : K) :
    (∃ p ∈ groupbySum key rows, p.1 = d) ↔ ∃ r ∈ rows, key r = d := by
  unfold groupbySum
  constructor
  · rintro ⟨p, hp, hd⟩
    rcases List.mem_map.mp hp with ⟨k, hk, rfl⟩
    have hk2 : k ∈ (rows.map key).dedup := (List.perm_insertionSort _ _).mem_iff.mp hk
    rcases List.mem_map.mp (List.mem_dedup.mp hk2) with ⟨r, hr, hkr⟩
    exact ⟨r, hr, by simpa [← hd] using hkr⟩
  · rintro ⟨r, hr, hd⟩
    refine ⟨(d, _), List.mem_map.mpr ⟨d, ?_, rfl⟩, rfl⟩
    exact (List.perm_insertionSort _ _).mem_iff.mpr
      (List.mem_dedup.mpr (List.mem_map.mpr ⟨r, hr, hd⟩))

/-- `expenses_df.groupby('date')['amount'].sum().reset_index()`, the daily
series of FinancialTreaking101.py lines 320-322 and 541-544. -/
def daily_data (rows : List Row) : List (ℕ × ℚ) := groupbySum Row.date rows

/-- `pd.merge(..., on='date', how='outer').fillna(0)` followed by
`net = income - expenses` (lines 331-334): keys are the union of the two
key sets (an outer join sorts its keys), missing sides filled with 0. -/
def cash_flow_merge (ex inc : List (ℕ × ℚ)) : List (ℕ × ℚ × ℚ × ℚ) :=
  (List.insertionSort (· ≤ ·) (ex.map Prod.fst ++ inc.map Prod.fst).dedup).map
    (fun d => (d, (ex.lookup d).getD 0, (inc.lookup d).getD 0,
      (inc.lookup d).getD 0 - (ex.lookup d).getD 0))

/-- The chart datasets built by `create_financial_charts` (lines 313-337);
each is present only when its guard holds. -/
structure Charts where
  expense_by_category : Option (List (String × ℚ))
  expense_trend : Option (List (ℕ × ℚ))
  income_by_source : Option (List (String × ℚ))
  income_trend : Option (List (ℕ × ℚ))
  cash_flow : Option (List (ℕ × ℚ × ℚ × ℚ))

/-- `create_financial_charts(expenses_df, income_df)` (lines 313-337).  The
guards check emptiness, `amount` and `category`/`source`; the
`groupby('date')` calls inside each branch are unguarded, so a frame that
passes a guard without a `date` column raises. -/
def create_financial_charts (expenses_df income_df : DataFrame) :
    Except String Charts := do
  let expPair ←
    if !expenses_df.rows.isEmpty && expenses_df.hasAmount && expenses_df.hasCategory then
      if expenses_df.hasDate then
        Except.ok (some (groupbySum Row.category expenses_df.rows,
          groupbySum Row.date expenses_df.rows))
      else Except.error "KeyError: date"
    else Except.ok none
  let incPair ←
    if !income_df.rows.isEmpty && income_df.hasAmount && income_df.hasSource then
      if income_df.hasDate then
        Except.ok (some (groupbySum Row.source income_df.rows,
          groupbySum Row.date income_df.rows))
      else Except.error "KeyError: date"
    else Except.ok none
  let flow ←
    if !expenses_df.rows.isEmpty && !income_df.rows.isEmpty &&
        expenses_df.hasAmount && income_df.hasAmount then
      if expenses_df.hasDate && income_df.hasDate then
        Except.ok (some (cash_flow_merge (groupbySum Row.date expenses_df.rows)
          (groupbySum Row.date income_df.rows)))
      else Except.error "KeyError: date"
    else Except.ok none
  Except.ok ⟨expPair.map Prod.fst, expPair.map Prod.snd,
    incPair.map Prod.fst, incPair.map Prod.snd, flow⟩

/-- Claim C4: the date-grouped series depends only on the multiset of input
rows (so any reordering of the input yields the same series), its keys are
strictly ascending dates, each value is the sum of the amounts on that
date, and its keys are exactly the dates occurring in the input. -/
theorem C4_date_series_sorted (rows rows2 : List Row) (hperm : rows.Perm rows2) :
    daily_data rows = daily_data rows2 ∧
    ((daily_data rows).map Prod.fst).Sorted (· < ·) ∧
    (∀ p ∈ daily_data rows,
      p.2 = ((rows.filter (fun r => r.date = p.1)).map Row.amount).sum) ∧
    (∀ d : ℕ, (∃ p ∈ daily_data rows, p.1 = d) ↔ ∃ r ∈ rows, r.date = d) :=
  ⟨groupbySum_perm Row.date hperm, groupbySum_sorted Row.date rows,
   fun p hp => groupbySum_mem Row.date rows p hp,
   fun d => groupbySum_covers Row.date rows d⟩

theorem C4_date_series_sorted_witness :
    daily_data [⟨10, "", "", "", 5, false⟩, ⟨7, "", "", "", 3, true⟩]
      = daily_data [⟨7, "", "", "", 3, true⟩, ⟨10, "", "", "", 5, false⟩] ∧
    ((daily_data [⟨10, "", "", "", 5, false⟩, ⟨7, "", "", "", 3, true⟩]).map
      Prod.fst).Sorted (· < ·) := by
  have hp : ([⟨10, "", "", "", 5, false⟩, ⟨7, "", "", "", 3, true⟩] : List Row).Perm
      [⟨7, "", "", "", 3, true⟩, ⟨10, "", "", "", 5, false⟩] :=
    List.Perm.swap _ _ []
  exact ⟨(C4_date_series_sorted _ _ hp).1, (C4_date_series_sorted _ _ hp).2.1⟩

/-- Claim C5: over the empty collection every grouped series (by category,
source, payment method or date) is the empty sequence, and the chart
builder on empty frames returns with no chart and no error. -/
theorem C5_empty_grouping :
    groupbySum Row.category ([] : List Row) = [] ∧
    groupbySum Row.source ([] : List Row) = [] ∧
    groupbySum Row.payment_method ([] : List Row) = [] ∧
    groupbySum Row.date ([] : List Row) = [] ∧
    create_financial_charts emptyDF emptyDF = Except.ok ⟨none, none, none, none, none⟩ :=
  ⟨rfl, rfl, rfl, rfl, rfl⟩

/-- The inline savings-rate computed on the Financial Advisor page
(FinancialTreaking101.py lines 810-819): the `user_data` dictionary entry
`savings_rate`, written with its own emptiness guards and an `else 1`
denominator fallback. -/
def user_data_savings_rate (expenses_df income_df : DataFrame) : ℚ :=
  if (if income_df.hasAmount && !income_df.rows.isEmpty then amountSum income_df else 0) > 0 then
    ((if income_df.hasAmount && !income_df.rows.isEmpty then amountSum income_df else 0) -
     (if expenses_df.hasAmount && !expenses_df.rows.isEmpty then amountSum expenses_df else 0)) /
    (if income_df.hasAmount && !income_df.rows.isEmpty then amountSum income_df else 1) * 100
  else 0

/-- Claim C1: for every non-empty expense collection, the MetricsSummary
satisfies `fixed_expenses + variable_expenses = total_expenses` exactly, and
`variable_expenses = total_expenses - fixed_expenses`; the two complementary
boolean filters of lines 303-304 partition the rows, so the identities are
exact, not merely within an epsilon. -/
theorem C1_fixed_plus_variable (e i : DataFrame) (m : Metrics)
    (_hne : e.rows ≠ [])
    (h : calculate_financial_metrics e i = Except.ok m) :
    m.fixed_expenses + m.variable_expenses = m.total_expenses ∧
    m.variable_expenses = m.total_expenses - m.fixed_expenses := by
  rw [calculate_eq] at h
  by_cases hg : (fixedOk e && fixedOk i) = true
  · rw [if_pos hg] at h
    cases h
    have hpart := fixed_add_variable e
    exact ⟨hpart, by linarith⟩
  · rw [if_neg hg] at h
    cases h

theorem C1_fixed_plus_variable_witness :
    ((⟨true, true, false, false, false,
        [⟨200, "Housing", "", "", 1, true⟩, ⟨100, "Food", "", "", 2, false⟩]⟩ :
        DataFrame).rows ≠ []) ∧
    ∃ m, calculate_financial_metrics
        ⟨true, true, false, false, false,
          [⟨200, "Housing", "", "", 1, true⟩, ⟨100, "Food", "", "", 2, false⟩]⟩
        emptyDF = Except.ok m ∧
      m.fixed_expenses + m.variable_expenses = m.total_expenses ∧
      m.variable_expenses = m.total_expenses - m.fixed_expenses := by
  have h : calculate_financial_metrics
      ⟨true, true, false, false, false,
        [⟨200, "Housing", "", "", 1, true⟩, ⟨100, "Food", "", "", 2, false⟩]⟩
      emptyDF = Except.ok ⟨300, 0, 200, 100, 0, 0, -300, 0, 0⟩ := by
    rw [calculate_eq]
    norm_num [fixedOk, totalOf, fixedPure, variablePure, amountSum, emptyDF, List.filter]
  exact ⟨by decide, _, h, C1_fixed_plus_variable _ _ _ (by decide) h⟩

/-- Claim C2: every MetricsSummary the calculator returns satisfies
`net_income = total_income - total_expenses` (line 308), for all inputs,
empty frames included. -/
theorem C2_net_income (e i : DataFrame) (m : Metrics)
    (h : calculate_financial_metrics e i = Except.ok m) :
    m.net_income = m.total_income - m.total_expenses := by
  rw [calculate_eq] at h
  by_cases hg : (fixedOk e && fixedOk i) = true
  · rw [if_pos hg] at h; cases h; rfl
  · rw [if_neg hg] at h; cases h

theorem C2_net_income_witness :
    ∃ m, calculate_financial_metrics emptyDF emptyDF = Except.ok m ∧
      m.net_income = m.total_income - m.total_expenses := by
  have h : calculate_financial_metrics emptyDF emptyDF =
      Except.ok ⟨0, 0, 0, 0, 0, 0, 0, 0, 0⟩ := by
    rw [calculate_eq]
    norm_num [fixedOk, totalOf, fixedPure, variablePure, amountSum, emptyDF]
  exact ⟨_, h, C2_net_income _ _ _ h⟩

/-- Claim C3: whenever the income total is 0, the calculator (on frames
that do not hit the missing-`fixed`-column defect recorded under C9)
returns a summary with `savings_rate = 0` and `expense_ratio = 0`: the
guards of lines 309-310 short-circuit the division, so the call succeeds
and neither ratio is undefined. -/
theorem C3_zero_income_ratios (e i : DataFrame)
    (he : fixedOk e = true) (hi : fixedOk i = true)
    (h0 : totalOf i = 0) :
    ∃ m, calculate_financial_metrics e i = Except.ok m ∧
      m.savings_rate = 0 ∧ m.expense_ratio = 0 := by
  rw [calculate_eq, he, hi]
  refine ⟨_, rfl, ?_, ?_⟩ <;> simp [h0]

theorem C3_zero_income_ratios_witness :
    fixedOk ⟨true, true, false, false, false, [⟨100, "Food", "", "", 1, false⟩]⟩ = true ∧
    fixedOk emptyDF = true ∧
    totalOf emptyDF = 0 ∧
    ∃ m, calculate_financial_metrics
        ⟨true, true, false, false, false, [⟨100, "Food", "", "", 1, false⟩]⟩
        emptyDF = Except.ok m ∧
      m.savings_rate = 0 ∧ m.expense_ratio = 0 :=
  ⟨by decide, by decide, by decide,
    C3_zero_income_ratios _ _ (by decide) (by decide) (by decide)⟩

/-- `objective(weights)` of FinancialTreaking101.py line 785:
`-np.sum(investments_df['amount'] * weights)`. -/
def objective (amounts weights : List ℚ) : ℚ :=
  -(List.zipWith (fun a w => a * w) amounts weights).sum

/-- The feasible set of the `minimize` call of lines 786-789: one weight per
asset, box bounds `0 ≤ w ≤ 1` for each, and the equality constraint
`np.sum(x) - 1 = 0`. -/
def feasible (amounts weights : List ℚ) : Prop :=
  weights.length = amounts.length ∧ (∀ w ∈ weights, 0 ≤ w ∧ w ≤ 1) ∧ weights.sum = 1

/-- An exact optimum of the allocation program: feasible with minimal
objective.  The generic solver returns such a point (up to tolerance); the
program itself determines only this set of optima, so a property of the
returned weights holds for the code only if it holds for every optimum. -/
def isOptimal (amounts weights : List ℚ) : Prop :=
  feasible amounts weights ∧
    ∀ v, feasible amounts v → objective amounts weights ≤ objective amounts v

/-- The weight vector of length `n` putting all weight on index `j`. -/
def unitVec : ℕ → ℕ → List ℚ
  | _, 0 => []
  | 0, n + 1 => 1 :: List.replicate n 0
  | j + 1, n + 1 => 0 :: unitVec j n

theorem unitVec_length (j n : ℕ) : (unitVec j n).length = n := by
  induction n generalizing j with
  | zero => cases j <;> rfl
  | succ n ih => cases j with
    | zero => simp [unitVec]
    | succ j => simp [unitVec, ih]

theorem unitVec_sum (j n : ℕ) (h : j < n) : (unitVec j n).sum = 1 := by
  induction n generalizing j with
  | zero => omega
  | succ n ih => cases j with
    | zero => simp [unitVec]
    | succ j => simp [unitVec, ih j (by omega)]

theorem unitVec_mem (j n : ℕ) (w : ℚ) (h : w ∈ unitVec j n) : w = 0 ∨ w = 1 := by
  induction n generalizing j with
  | zero => cases j <;> simp [unitVec] at h
  | succ n ih => cases j with
    | zero =>
      rcases List.mem_cons.mp h with h1 | h2
      · exact Or.inr h1
      · exact Or.inl (List.eq_of_mem_replicate h2)
    | succ j =>
      rcases List.mem_cons.mp h with h1 | h2
      · exact Or.inl h1
      · exact ih j h2

theorem getD_replicate_zero (n k : ℕ) : (List.replicate n (0 : ℚ)).getD k 0 = 0 := by
  induction n generalizing k with
  | zero => simp
  | succ n ih => cases k <;> simp [List.replicate_succ, ih]

theorem unitVec_getD (j n k : ℕ) : (unitVec j n).getD k 0 = if k = j ∧ k < n then 1 else 0 := by
  induction n generalizing j k with
  | zero => cases j <;> simp [unitVec]
  | succ n ih => cases j with
    | zero => cases k with
      | zero => simp [unitVec]
      | succ k => simp [unitVec, getD_replicate_zero]
    | succ j => cases k with
      | zero => simp [unitVec]
      | succ k => simpa [unitVec, Nat.succ_lt_succ_iff] using ih j k

theorem zip_replicate_zero (a : List ℚ) (n : ℕ) :
    (List.zipWith (fun x y => x * y) a (List.replicate n 0)).sum = 0 := by
  induction a generalizing n with
  | nil => simp
  | cons x xs ih => cases n with
    | zero => simp
    | succ n => simp [List.replicate_succ, ih n]

theorem zip_unitVec (a : List ℚ) (j : ℕ) (hj : j < a.length) :
    (List.zipWith (fun x y => x * y) a (unitVec j a.length)).sum = a.getD j 0 := by
  induction a generalizing j with
  | nil => simp at hj
  | cons x xs ih => cases j with
    | zero => simp [unitVec, zip_replicate_zero]
    | succ j => simp [unitVec, ih j (by simpa using hj)]

theorem zip_sum_le (M : ℚ) : ∀ a w : List ℚ, a.length = w.length →
    (∀ x ∈ a, x ≤ M) → (∀ y ∈ w, 0 ≤ y) →
    (List.zipWith (fun x y => x * y) a w).sum ≤ M * w.sum := by
  intro a
  induction a with
  | nil =>
    intro w hlen _ _
    cases w with
    | nil => simp
    | cons y ys => simp at hlen
  | cons x xs ih =>
    intro w hlen ha hw
    cases w with
    | nil => simp at hlen
    | cons y ys =>
      have h1 : x * y ≤ M * y :=
        mul_le_mul_of_nonneg_right (ha x (List.mem_cons_self _ _))
          (hw y (List.mem_cons_self _ _))
      have h2 := ih ys (by simpa using hlen)
        (fun z hz => ha z (List.mem_cons_of_mem _ hz))
        (fun z hz => hw z (List.mem_cons_of_mem _ hz))
      simp only [List.zipWith_cons_cons, List.sum_cons]
      have hexp : M * (y + ys.sum) = M * y + M * ys.sum := by ring
      rw [hexp]
      linarith

theorem zip_sum_eq_forces (M : ℚ) : ∀ a w : List ℚ, a.length = w.length →
    (∀ x ∈ a, x ≤ M) → (∀ y ∈ w, 0 ≤ y) →
    (List.zipWith (fun x y => x * y) a w).sum = M * w.sum →
    ∀ k, k < a.length → a.getD k 0 < M → w.getD k 0 = 0 := by
  intro a
  induction a with
  | nil => intro w _ _ _ _ k hk; simp at hk
  | cons x xs ih =>
    intro w hlen ha hw heq k hk hlt
    cases w with
    | nil => simp at hlen
    | cons y ys =>
      have h1 : x * y ≤ M * y :=
        mul_le_mul_of_nonneg_right (ha x (List.mem_cons_self _ _))
          (hw y (List.mem_cons_self _ _))
      have h2 := zip_sum_le M xs ys (by simpa using hlen)
        (fun z hz => ha z (List.mem_cons_of_mem _ hz))
        (fun z hz => hw z (List.mem_cons_of_mem _ hz))
      simp only [List.zipWith_cons_cons, List.sum_cons] at heq
      have hexp : M * (y + ys.sum) = M * y + M * ys.sum := by ring
      rw [hexp] at heq
      have hheadeq : x * y = M * y := by linarith
      have htaileq : (List.zipWith (fun x y => x * y) xs ys).sum = M * ys.sum := by linarith
      cases k with
      | zero =>
        simp only [List.getD_cons_zero] at hlt ⊢
        have h0 : (M - x) * y = 0 := by ring_nf; linarith
        rcases mul_eq_zero.mp h0 with h | h
        · exact absurd h (by intro hc; linarith)
        · exact h
      | succ k =>
        simp only [List.getD_cons_succ] at hlt ⊢
        exact ih ys (by simpa using hlen)
          (fun z hz => ha z (List.mem_cons_of_mem _ hz))
          (fun z hz => hw z (List.mem_cons_of_mem _ hz))
          htaileq k (by simpa using hk) hlt

theorem sum_eq_single_getD : ∀ (w : List ℚ) (j : ℕ), j < w.length →
    (∀ k, k < w.length → k ≠ j → w.getD k 0 = 0) → w.sum = w.getD j 0 := by
  intro w
  induction w with
  | nil => intro j hj; simp at hj
  | cons y ys ih =>
    intro j hj hz
    cases j with
    | zero =>
      have hys : ∀ x ∈ ys, x = 0 := by
        intro x hx
        rcases List.mem_iff_getElem.mp hx with ⟨n, hn, rfl⟩
        have h := hz (n + 1) (by simpa using hn) (by omega)
        rw [List.getD_cons_succ, List.getD_eq_getElem ys 0 hn] at h
        exact h
      simp [List.sum_eq_zero hys]
    | succ j =>
      have h0 : y = 0 := by simpa [List.getD_cons_zero] using hz 0 (by simp) (by omega)
      have ht := ih j (by simpa using hj)
        (fun k hk hkj => by
          simpa [List.getD_cons_succ] using hz (k + 1) (by simpa using hk) (by omega))
      simp [h0, ht]

theorem unitVec_feasible (amounts : List ℚ) (j : ℕ) (hj : j < amounts.length) :
    feasible amounts (unitVec j amounts.length) :=
  ⟨unitVec_length _ _,
   fun w hw => by rcases unitVec_mem _ _ _ hw with rfl | rfl <;> norm_num,
   unitVec_sum _ _ hj⟩

theorem unitVec_isOptimal (amounts : List ℚ) (j : ℕ) (hj : j < amounts.length)
    (hmax : ∀ x ∈ amounts, x ≤ amounts.getD j 0) :
    isOptimal amounts (unitVec j amounts.length) := by
  refine ⟨unitVec_feasible amounts j hj, ?_⟩
  intro v hv
  unfold objective
  rw [zip_unitVec amounts j hj]
  have h2 : (List.zipWith (fun x y => x * y) amounts v).sum ≤ amounts.getD j 0 * v.sum :=
    zip_sum_le _ amounts v hv.1.symm hmax (fun y hy => (hv.2.1 y hy).1)
  rw [hv.2.2, mul_one] at h2
  linarith

/-- Claim C6 (amended): every optimum of the allocation program has weight 1
at the unique largest amount and weight 0 everywhere else; at ties the
optimum is not unique, so the solver is not forced to give the first-seen
asset weight 1.0 (see the counterexample). -/
theorem C6_unique_max_allocation (amounts w : List ℚ) (j : ℕ)
    (hj : j < amounts.length)
    (hmax : ∀ k, k < amounts.length → k ≠ j → amounts.getD k 0 < amounts.getD j 0)
    (hopt : isOptimal amounts w) :
    w.length = amounts.length ∧ w.getD j 0 = 1 ∧
    ∀ k, k < amounts.length → k ≠ j → w.getD k 0 = 0 := by
  obtain ⟨⟨hlen, hbox, hsum⟩, hmin⟩ := hopt
  have hle : ∀ x ∈ amounts, x ≤ amounts.getD j 0 := by
    intro x hx
    rcases List.mem_iff_getElem.mp hx with ⟨k, hk, rfl⟩
    by_cases hkj : k = j
    · subst hkj; rw [List.getD_eq_getElem amounts 0 hk]
    · rw [← List.getD_eq_getElem amounts 0 hk]
      exact le_of_lt (hmax k hk hkj)
  have hopt2 := hmin (unitVec j amounts.length) (unitVec_feasible amounts j hj)
  unfold objective at hopt2
  rw [zip_unitVec amounts j hj] at hopt2
  have hub : (List.zipWith (fun x y => x * y) amounts w).sum ≤ amounts.getD j 0 * w.sum :=
    zip_sum_le _ amounts w hlen.symm hle (fun y hy => (hbox y hy).1)
  have heq : (List.zipWith (fun x y => x * y) amounts w).sum
      = amounts.getD j 0 * w.sum := by
    rw [hsum, mul_one] at hub ⊢
    linarith
  have hzero := zip_sum_eq_forces _ amounts w hlen.symm hle
    (fun y hy => (hbox y hy).1) heq
  have hz2 : ∀ k, k < w.length → k ≠ j → w.getD k 0 = 0 := by
    intro k hk hkj
    exact hzero k (by omega) (hmax k (by omega) hkj)
  have hwj : w.sum = w.getD j 0 := sum_eq_single_getD w j (by omega) hz2
  refine ⟨hlen, by rw [← hwj, hsum], fun k hk hkj => hzero k hk (hmax k hk hkj)⟩

theorem C6_unique_max_allocation_witness :
    isOptimal [100, 50, 200] (unitVec 2 3) ∧
    (unitVec 2 3).getD 2 0 = 1 ∧
    ∀ k, k < 3 → k ≠ 2 → (unitVec 2 3).getD k 0 = 0 := by
  have hopt : isOptimal [(100 : ℚ), 50, 200] (unitVec 2 3) :=
    unitVec_isOptimal [100, 50, 200] 2 (by decide) (by decide)
  have h := C6_unique_max_allocation [100, 50, 200] (unitVec 2 3) 2
    (by decide) (by decide) hopt
  exact ⟨hopt, h.2.1, fun k hk hk2 => h.2.2 k hk hk2⟩

/-- Claim C6 counterexample: over the tied amounts `{A: 100, B: 100}` the
even split `[1/2, 1/2]` is a feasible optimum of the program posed at lines
784-789 and differs from the first-seen unit vector `[1, 0]` (itself also
optimal), so the program does not force the solver to return weight 1.0
for the first-seen maximum at ties. -/
theorem C6_tie_counterexample :
    isOptimal [100, 100] [1 / 2, 1 / 2] ∧
    isOptimal [100, 100] (unitVec 0 2) ∧
    ([1 / 2, 1 / 2] : List ℚ) ≠ unitVec 0 2 := by
  refine ⟨⟨⟨rfl, ?_, by norm_num⟩, ?_⟩,
    unitVec_isOptimal [100, 100] 0 (by decide) (by decide), ?_⟩
  · intro w hw
    have hw2 : w = 1 / 2 := by
      rcases List.mem_cons.mp hw with h | h
      · exact h
      · simpa using h
    rw [hw2]; norm_num
  · intro v hv
    have h2 : (List.zipWith (fun x y => x * y) ([100, 100] : List ℚ) v).sum
        ≤ 100 * v.sum := by
      refine zip_sum_le 100 _ v hv.1.symm ?_ (fun y hy => (hv.2.1 y hy).1)
      intro x hx
      rcases List.mem_cons.mp hx with h | h
      · rw [h]
      · simp at h; rw [h]
    rw [hv.2.2, mul_one] at h2
    unfold objective
    have h3 : (List.zipWith (fun x y => x * y) ([100, 100] : List ℚ)
        [1 / 2, 1 / 2]).sum = 100 := by norm_num
    rw [h3]
    linarith
  · have huv : unitVec 0 2 = [1, 0] := rfl
    rw [huv]
    norm_num [List.cons.injEq]

/-- A forecast point, spec section 4.3. -/
structure ForecastPoint where
  future_month : ℕ
  projected_expenses : ℚ
  projected_income : ℚ
  projected_net : ℚ
deriving DecidableEq

/-- Modelled from the spec: the trend/forecast projector of section 4.3 is
absent from the source files.  Monthly sums group the rows by calendar
month; with dates encoded as `yyyymm * 100 + dd`, the month key of a row is
`date / 100`. -/
def monthly_sums (rows : List Row) : List (ℕ × ℚ) :=
  groupbySum (fun r => r.date / 100) rows

/-- Modelled from the spec: the flat projected value is the arithmetic mean
of the historical monthly sums. -/
def mean_monthly (rows : List Row) : ℚ :=
  ((monthly_sums rows).map Prod.snd).sum / ((monthly_sums rows).length : ℚ)

/-- Modelled from the spec (section 4.3): with empty history on either side
the projector signals insufficient data; otherwise it returns one point per
future month, each carrying the flat mean-projected values and
`projected_net = projected_income - projected_expenses`. -/
def forecast (expenses income : List Row) (months_ahead : ℕ) :
    Except String (List ForecastPoint) :=
  if expenses.isEmpty || income.isEmpty then Except.error "insufficient data"
  else
    Except.ok ((List.range months_ahead).map (fun k =>
      ⟨k + 1, mean_monthly expenses, mean_monthly income,
        mean_monthly income - mean_monthly expenses⟩))

/-- Claim C7: for non-empty histories the projector returns exactly
`months_ahead` points, each the arithmetic mean of the historical monthly
sums with `projected_net = projected_income - projected_expenses`; with
either history empty it signals insufficient data instead of projecting
zero. -/
theorem C7_forecast (expenses income : List Row) (months_ahead : ℕ) :
    ((expenses = [] ∨ income = []) →
      forecast expenses income months_ahead = Except.error "insufficient data") ∧
    ∀ pts, forecast expenses income months_ahead = Except.ok pts →
      pts.length = months_ahead ∧
      ∀ p ∈ pts, p.projected_net = p.projected_income - p.projected_expenses ∧
        p.projected_expenses = mean_monthly expenses ∧
        p.projected_income = mean_monthly income := by
  constructor
  · rintro (rfl | rfl) <;> simp [forecast]
  · intro pts hpts
    unfold forecast at hpts
    by_cases hg : (expenses.isEmpty || income.isEmpty) = true
    · rw [if_pos hg] at hpts; cases hpts
    · rw [if_neg hg] at hpts
      cases hpts
      refine ⟨by simp, ?_⟩
      intro p hp
      rcases List.mem_map.mp hp with ⟨k, _, rfl⟩
      exact ⟨rfl, rfl, rfl⟩

theorem C7_forecast_witness :
    forecast [] [⟨80, "", "Salary", "", 101, true⟩] 3
      = Except.error "insufficient data" ∧
    ∃ pts, forecast [⟨50, "Food", "", "", 101, false⟩]
        [⟨80, "", "Salary", "", 101, true⟩] 3 = Except.ok pts ∧
      pts.length = 3 := by
  have h2 : forecast [⟨50, "Food", "", "", 101, false⟩]
      [⟨80, "", "Salary", "", 101, true⟩] 3
      = Except.ok ((List.range 3).map (fun k =>
        ⟨k + 1, mean_monthly [⟨50, "Food", "", "", 101, false⟩],
          mean_monthly [⟨80, "", "Salary", "", 101, true⟩],
          mean_monthly [⟨80, "", "Salary", "", 101, true⟩]
            - mean_monthly [⟨50, "Food", "", "", 101, false⟩]⟩)) := rfl
  exact ⟨(C7_forecast [] [⟨80, "", "Salary", "", 101, true⟩] 3).1 (Or.inl rfl),
    _, h2, ((C7_forecast _ _ 3).2 _ h2).1⟩

/-- One CSV row, with the typed values the import branches read.  A value
is consulted only when its column is listed among the frame's columns. -/
structure CsvRow where
  typ : String
  amount : ℚ
  category : String
  source : String
  date : String
  description : String
  payment_method : String
  goal_name : String
  target_amount : ℚ
  current_amount : ℚ
  target_date : String
  priority : ℕ
  limit_amount : ℚ
  period : String
  asset_name : String
  amount_invested : ℚ
  current_value : ℚ
  purchase_date : String
  rec_type : String
  frequency : String
  next_date : String
deriving DecidableEq

/-- An uploaded CSV: its column names and its rows. -/
structure Csv where
  columns : List String
  rows : List CsvRow
deriving DecidableEq

/-- pandas `row.get(col, default)`: the stored value when the column is
present in the frame, the default otherwise; it never raises. -/
def cget {A : Type} (cols : List String) (col : String) (v d : A) : A :=
  if col ∈ cols then v else d

/-- Python `str.lower()`, as a structural map over the characters. -/
def lowerStr (s : String) : String := ⟨s.data.map Char.toLower⟩

/-- Required columns of the sidebar CSV import
(FinancialTreaking101.py line 431). -/
def required_columns : List String := ["Type", "Amount", "Date"]

/-- Outcome of the sidebar CSV import: either the rows are split by `Type`
and stored, or the whole upload is rejected with an error naming columns. -/
inductive UploadResult where
  | stored (expenses income : List CsvRow)
  | rejected (needed : List String)
deriving DecidableEq

/-- The sidebar CSV import of FinancialTreaking101.py lines 428-453: when
every required column is present the rows are split by lower-cased `Type`
and stored; otherwise nothing is stored and the error
`Missing required columns. Needed: ...` lists `required_columns`. -/
def upload_financial_csv (c : Csv) : UploadResult :=
  if required_columns.all (fun col => col ∈ c.columns) then
    UploadResult.stored (c.rows.filter (fun r => lowerStr r.typ == "expense"))
      (c.rows.filter (fun r => lowerStr r.typ == "income"))
  else UploadResult.rejected required_columns

/-- The rows an upload outcome stored. -/
def storedRows : UploadResult → List CsvRow
  | UploadResult.stored e i => e ++ i
  | UploadResult.rejected _ => []

/-- The column names the outcome's error message reports. -/
def reportedColumns : UploadResult → List String
  | UploadResult.stored _ _ => []
  | UploadResult.rejected needed => needed

structure ExpenseRec where
  user_id : ℕ
  amount : ℚ
  category : String
  date : String
  description : String
  payment_method : String
deriving DecidableEq

structure IncomeRec where
  user_id : ℕ
  amount : ℚ
  source : String
  date : String
  description : String
deriving DecidableEq

structure GoalRec where
  user_id : ℕ
  goal_name : String
  target_amount : ℚ
  current_amount : ℚ
  target_date : String
  priority : ℕ
deriving DecidableEq

structure BudgetRec where
  user_id : ℕ
  category : String
  limit_amount : ℚ
  period : String
deriving DecidableEq

structure InvestmentRec where
  user_id : ℕ
  asset_name : String
  amount_invested : ℚ
  current_value : ℚ
  purchase_date : String
deriving DecidableEq

structure RecurringRec where
  user_id : ℕ
  typ : String
  amount : ℚ
  category : String
  frequency : String
  next_date : String
deriving DecidableEq

/-- The six user tables app_1.py's loader touches. -/
structure DB where
  expenses : List ExpenseRec
  income : List IncomeRec
  savings_goals : List GoalRec
  budgets : List BudgetRec
  investments : List InvestmentRec
  recurring : List RecurringRec
deriving DecidableEq

def emptyDB : DB := ⟨[], [], [], [], [], []⟩

/-- `load_csv_to_db(conn, uploaded_file, user_id)` of app_1.py lines
70-109: deletes every row of the user from all six tables, then walks the
CSV rows and inserts by `type` with `row.get` defaults substituted for
missing columns.  No required-column validation is performed: the
`except KeyError` handler of line 106 is unreachable because `row.get`
never raises.  `today` stands for `datetime.now().strftime('%Y-%m-%d')`. -/
def load_csv_to_db (db : DB) (c : Csv) (user_id : ℕ) (today : String) : DB :=
  let db1 : DB :=
    ⟨db.expenses.filter (fun r => r.user_id ≠ user_id),
     db.income.filter (fun r => r.user_id ≠ user_id),
     db.savings_goals.filter (fun r => r.user_id ≠ user_id),
     db.budgets.filter (fun r => r.user_id ≠ user_id),
     db.investments.filter (fun r => r.user_id ≠ user_id),
     db.recurring.filter (fun r => r.user_id ≠ user_id)⟩
  c.rows.foldl (fun d r =>
    let data_type := lowerStr (cget c.columns "type" r.typ "")
    if data_type = "expense" then
      { d with expenses := d.expenses ++
        [⟨user_id, cget c.columns "amount" r.amount 0,
          cget c.columns "category" r.category "Other",
          cget c.columns "date" r.date today,
          cget c.columns "description" r.description "",
          cget c.columns "payment_method" r.payment_method "Unknown"⟩] }
    else if data_type = "income" then
      { d with income := d.income ++
        [⟨user_id, cget c.columns "amount" r.amount 0,
          cget c.columns "source" r.source "Other",
          cget c.columns "date" r.date today,
          cget c.columns "description" r.description ""⟩] }
    else if data_type = "savings" then
      { d with savings_goals := d.savings_goals ++
        [⟨user_id, cget c.columns "goal_name" r.goal_name "Unnamed Goal",
          cget c.columns "target_amount" r.target_amount 0,
          cget c.columns "current_amount" r.current_amount 0,
          cget c.columns "target_date" r.target_date "2025-12-31",
          cget c.columns "priority" r.priority 1⟩] }
    else if data_type = "budget" then
      { d with budgets := d.budgets ++
        [⟨user_id, cget c.columns "category" r.category "Other",
          cget c.columns "limit_amount" r.limit_amount 0,
          cget c.columns "period" r.period "Monthly"⟩] }
    else if data_type = "investment" then
      { d with investments := d.investments ++
        [⟨user_id, cget c.columns "asset_name" r.asset_name "Unknown",
          cget c.columns "amount_invested" r.amount_invested 0,
          cget c.columns "current_value" r.current_value 0,
          cget c.columns "purchase_date" r.purchase_date today⟩] }
    else if data_type = "recurring" then
      { d with recurring := d.recurring ++
        [⟨user_id, cget c.columns "rec_type" r.rec_type "expense",
          cget c.columns "amount" r.amount 0,
          cget c.columns "category" r.category "Other",
          cget c.columns "frequency" r.frequency "Monthly",
          cget c.columns "next_date" r.next_date today⟩] }
    else d) db1

/-- A concrete CSV row used to exercise the import paths. -/
def sampleCsvRow : CsvRow :=
  ⟨"Expense", 5, "Food", "", "2026-01-01", "", "", "", 0, 0, "", 1, 0, "",
   "", 0, 0, "", "", "", ""⟩

/-- Claim C8 (amended): the sidebar import of FinancialTreaking101.py does
reject wholesale any CSV missing a required column: nothing is stored and
the error names the whole required set, hence every missing column.  (The
app_1.py loader performs no such validation; see the counterexample.) -/
theorem C8_reject_missing_columns (c : Csv)
    (h : ∃ col ∈ required_columns, col ∉ c.columns) :
    upload_financial_csv c = UploadResult.rejected required_columns ∧
    storedRows (upload_financial_csv c) = [] ∧
    ∀ col ∈ required_columns, col ∉ c.columns →
      col ∈ reportedColumns (upload_financial_csv c) := by
  rcases h with ⟨col, hmem, hnot⟩
  have hall : required_columns.all (fun col => col ∈ c.columns) = false := by
    rw [Bool.eq_false_iff]
    intro hcon
    exact hnot (by simpa using List.all_eq_true.mp hcon col hmem)
  unfold upload_financial_csv
  rw [hall]
  exact ⟨rfl, rfl, fun c2 hc2 _ => hc2⟩

theorem C8_reject_missing_columns_witness :
    upload_financial_csv ⟨["Type", "Date"], [sampleCsvRow]⟩
      = UploadResult.rejected required_columns ∧
    storedRows (upload_financial_csv ⟨["Type", "Date"], [sampleCsvRow]⟩) = [] ∧
    "Amount" ∈ reportedColumns (upload_financial_csv ⟨["Type", "Date"], [sampleCsvRow]⟩) :=
  ⟨(C8_reject_missing_columns _ ⟨"Amount", by decide, by decide⟩).1,
   (C8_reject_missing_columns _ ⟨"Amount", by decide, by decide⟩).2.1,
   (C8_reject_missing_columns _ ⟨"Amount", by decide, by decide⟩).2.2 "Amount"
     (by decide) (by decide)⟩

/-- Claim C8 counterexample: app_1.py's loader stores an expense row from a
CSV that has no Amount and no Date column (amount defaults to 0, date to
today), so an upload missing required columns is not rejected and its rows
are stored. -/
theorem C8_app1_stores_despite_missing_columns :
    "amount" ∉ (Csv.mk ["type", "category"] [sampleCsvRow]).columns ∧
    "date" ∉ (Csv.mk ["type", "category"] [sampleCsvRow]).columns ∧
    (load_csv_to_db emptyDB (Csv.mk ["type", "category"] [sampleCsvRow]) 1
      "2026-10-12").expenses = [⟨1, 0, "Food", "2026-10-12", "", "Unknown"⟩] := by
  exact ⟨by decide, by decide, by decide⟩

/-- Claim C9: the metrics calculator is not total.  A frame that carries an
`amount` column and at least one row but no `fixed` column (possible: the
store returns whatever columns the table has, the CSV import only requires
Type/Amount/Date, and the sibling revision app_1.py has no `fixed` column
at all) makes line 303 raise `KeyError: 'fixed'` instead of returning a
MetricsSummary. -/
theorem C9_keyerror_missing_fixed :
    calculate_financial_metrics
      ⟨true, false, false, false, false, [⟨5, "Food", "", "", 1, false⟩]⟩
      emptyDF = Except.error "KeyError: fixed" := by
  rfl

/-- Claim C10: the Financial Advisor page's inline savings-rate
(lines 815-818) agrees with the `savings_rate` field of
`calculate_financial_metrics` (line 309) on every input pair on which the
calculator returns: both are `net_income / total_income * 100` when
`total_income > 0` and `0` otherwise. -/
theorem C10_advisor_savings_rate (e i : DataFrame) (m : Metrics)
    (h : calculate_financial_metrics e i = Except.ok m) :
    user_data_savings_rate e i = m.savings_rate := by
  rw [calculate_eq] at h
  by_cases hg : (fixedOk e && fixedOk i) = true
  · rw [if_pos hg] at h
    cases h
    unfold user_data_savings_rate totalOf
    by_cases hc : (i.hasAmount && !i.rows.isEmpty) = true
    · simp [hc]
    · simp [hc]
  · rw [if_neg hg] at h; cases h

theorem C10_advisor_savings_rate_witness :
    ∃ m, calculate_financial_metrics
        ⟨true, true, false, false, false, [⟨100, "Food", "", "", 1, false⟩]⟩
        ⟨true, true, false, false, false, [⟨1000, "", "Salary", "", 1, true⟩]⟩
        = Except.ok m ∧
      user_data_savings_rate
        ⟨true, true, false, false, false, [⟨100, "Food", "", "", 1, false⟩]⟩
        ⟨true, true, false, false, false, [⟨1000, "", "Salary", "", 1, true⟩]⟩ = m.savings_rate := by
  have h : calculate_financial_metrics
      ⟨true, true, false, false, false, [⟨100, "Food", "", "", 1, false⟩]⟩
      ⟨true, true, false, false, false, [⟨1000, "", "Salary", "", 1, true⟩]⟩
      = Except.ok ⟨100, 1000, 0, 100, 1000, 0, 900, 90, 10⟩ := by
    rw [calculate_eq]
    norm_num [fixedOk, totalOf, fixedPure, variablePure, amountSum, List.filter]
  exact ⟨_, h, C10_advisor_savings_rate _ _ _ h⟩

end FinanceTracker
